import Mathlib

/-!
Verification development for the `openapi_korea` MCP server
(`src/openapi_korea/server_claude.py`, the variant that all frozen claims
cite).  The Python source is shallowly embedded: raw upstream items are
key/value string maps, the parsed JSON envelope is a nest of `Option`s
mirroring the `'response' in data` / `'body' in response` / `items` checks,
the signature cache (`DataCache`) is an association list threaded explicitly
through every operation, wall-clock time is an explicit `Nat` parameter
(measured in minutes, the unit of the cache TTL), and the upstream HTTP call
is an abstract fetcher function returning `Except` (an exception raised by
`_make_request`) of `Option` (a parsed-but-falsy payload).  Logging to
stderr is modelled as a no-op.
-/

namespace OpenapiKorea

/-- One raw upstream record: a JSON object restricted to string values,
modelled as an association list.  `rawGet it k` models Python's
`item.get(k, '')`. -/
abbrev RawItem := List (String × String)

/-- `item.get(key, '')` on a raw upstream record. -/
def rawGet (it : RawItem) (k : String) : String :=
  ((it.find? (fun p => p.1 == k)).map (fun p => p.2)).getD ""

/-- The `body` object of an upstream response; `items = none` models a body
with no `items` key. -/
structure ApiBody where
  items : Option (List RawItem)
  deriving DecidableEq, Repr

/-- The `response` object; `body = none` models a response with no `body`
key. -/
structure ApiResponse where
  body : Option ApiBody
  deriving DecidableEq, Repr

/-- A parsed upstream payload; `response = none` models a document with no
`response` key. -/
structure ApiData where
  response : Option ApiResponse
  deriving DecidableEq, Repr

/-- Builds the fully well-formed envelope `{response: {body: {items: its}}}`;
used to state hypotheses about fetcher stubs. -/
def mkFull (its : List RawItem) : ApiData :=
  ⟨some ⟨some ⟨some its⟩⟩⟩

deriving instance DecidableEq for Except

/-- Result of one upstream page fetch as seen by a client method:
`error e` models `_make_request` raising, `ok none` models a falsy parsed
payload, `ok (some d)` a truthy one. -/
abbrev FetchResult := Except String (Option ApiData)

/-! ## `DataCache` (server_claude.py lines 23-42)

`self.cache` is a dict from string keys to `(data, timestamp)` pairs,
modelled as an association list with at most one entry per key (maintained
by `dcSet`).  `self.ttl = timedelta(minutes=ttl_minutes)`; time is counted
in minutes, so `ttl` is stored directly as `ttl_minutes`. -/

structure DataCache where
  cache : List (String × ApiData × Nat)
  ttl : Nat
  deriving DecidableEq, Repr

/-- `DataCache(ttl_minutes=30)`. -/
def mkDataCache (ttlMinutes : Nat := 30) : DataCache :=
  ⟨[], ttlMinutes⟩

/-- `DataCache.get`: returns the entry if present and younger than the TTL;
an expired entry is deleted as a side effect (the returned cache), a missing
key leaves the cache unchanged. -/
def dcGet (c : DataCache) (key : String) (now : Nat) : Option ApiData × DataCache :=
  match c.cache.find? (fun e => e.1 == key) with
  | none => (none, c)
  | some e =>
      if now - e.2.2 < c.ttl then (some e.2.1, c)
      else (none, ⟨c.cache.filter (fun e => !(e.1 == key)), c.ttl⟩)

/-- `DataCache.set`: stores `(data, now)` under `key`, replacing any
previous entry for the key. -/
def dcSet (c : DataCache) (key : String) (d : ApiData) (now : Nat) : DataCache :=
  ⟨(key, d, now) :: c.cache.filter (fun e => !(e.1 == key)), c.ttl⟩

/-- `DataCache.clear`. -/
def dcClear (c : DataCache) : DataCache :=
  ⟨[], c.ttl⟩

/-- The `(value, timestamp)` pair stored under `key`, if any (observation
helper used in theorem statements). -/
def dcEntry (c : DataCache) (key : String) : Option (ApiData × Nat) :=
  (c.cache.find? (fun e => e.1 == key)).map (fun e => e.2)

/-! ## Client methods (server_claude.py lines 45-151)

Each `get_sejong_*` method builds a cache key from its parameters, consults
the signature cache, and otherwise calls `_make_request` (the abstract
upstream fetcher) and stores a truthy result.  The upstream fetcher is a
parameter: `Upstream4` receives `(page_index, page_unit, search_condition,
search_keyword)`; the smoking-area endpoint sends a fixed search condition,
so its fetcher receives only three parameters. -/

abbrev Upstream4 := Nat → Nat → String → String → FetchResult
abbrev Upstream3 := Nat → Nat → String → FetchResult

/-- Cache key `f"parking_{page_index}_{page_unit}_{search_condition}_{search_keyword}"`. -/
def parkingKey (pageIndex pageUnit : Nat) (searchCondition searchKeyword : String) : String :=
  "parking_" ++ toString pageIndex ++ "_" ++ toString pageUnit ++ "_" ++
    searchCondition ++ "_" ++ searchKeyword

/-- Cache key `f"smoking_{page_index}_{page_unit}_{search_keyword}"`. -/
def smokingKey (pageIndex pageUnit : Nat) (searchKeyword : String) : String :=
  "smoking_" ++ toString pageIndex ++ "_" ++ toString pageUnit ++ "_" ++ searchKeyword

/-- Cache key `f"restaurant_{page_index}_{page_unit}_{search_condition}_{search_keyword}"`. -/
def restaurantKey (pageIndex pageUnit : Nat) (searchCondition searchKeyword : String) : String :=
  "restaurant_" ++ toString pageIndex ++ "_" ++ toString pageUnit ++ "_" ++
    searchCondition ++ "_" ++ searchKeyword

/-- Shared body of the three client methods: look the key up in the cache
(`if cached_data: return cached_data`), otherwise fetch and store a truthy
result (`if data: self.cache.set(cache_key, data)`). -/
def getCachedOrFetch (c : DataCache) (now : Nat) (key : String)
    (fetch : Unit → FetchResult) : FetchResult × DataCache :=
  let g := dcGet c key now
  match g.1 with
  | some d => (.ok (some d), g.2)
  | none =>
      match fetch () with
      | .error e => (.error e, g.2)
      | .ok none => (.ok none, g.2)
      | .ok (some d) => (.ok (some d), dcSet g.2 key d now)

/-- `KoreanOpenAPIClient.get_sejong_parking_info` (defaults: page 1,
unit 100, condition `"nm"`, keyword `""`). -/
def getSejongParkingInfo (u : Upstream4) (c : DataCache) (now : Nat)
    (pageIndex : Nat := 1) (pageUnit : Nat := 100)
    (searchCondition : String := "nm") (searchKeyword : String := "") :
    FetchResult × DataCache :=
  getCachedOrFetch c now (parkingKey pageIndex pageUnit searchCondition searchKeyword)
    (fun _ => u pageIndex pageUnit searchCondition searchKeyword)

/-- `KoreanOpenAPIClient.get_sejong_smoking_area` (defaults: page 1,
unit 100, keyword `""`). -/
def getSejongSmokingArea (u : Upstream3) (c : DataCache) (now : Nat)
    (pageIndex : Nat := 1) (pageUnit : Nat := 100) (searchKeyword : String := "") :
    FetchResult × DataCache :=
  getCachedOrFetch c now (smokingKey pageIndex pageUnit searchKeyword)
    (fun _ => u pageIndex pageUnit searchKeyword)

/-- `KoreanOpenAPIClient.get_sejong_restaurant` (defaults: page 1,
unit 100, condition `"mtlty"`, keyword `""`). -/
def getSejongRestaurant (u : Upstream4) (c : DataCache) (now : Nat)
    (pageIndex : Nat := 1) (pageUnit : Nat := 100)
    (searchCondition : String := "mtlty") (searchKeyword : String := "") :
    FetchResult × DataCache :=
  getCachedOrFetch c now (restaurantKey pageIndex pageUnit searchCondition searchKeyword)
    (fun _ => u pageIndex pageUnit searchCondition searchKeyword)

/-! ## Pagination aggregator `fetch_all_pages` (lines 263-295)

The `api_method` argument is a cache-threading page fetcher.  The embedding
additionally records the list of pages on which the fetcher was invoked
(`calls`), which the source makes observable through the fetcher itself; it
is needed to state the call-count properties.  The `print(..., sys.stderr)`
in the `except` branch is modelled as a no-op. -/

abbrev PageMethod := DataCache → Nat → FetchResult × DataCache

/-- Aggregation outcome: accumulated items, the pages the fetcher was
invoked on (in order), and the final cache state. -/
structure AggResult where
  items : List RawItem
  calls : List Nat
  cache : DataCache
  deriving Repr

/-- The `while page <= max_pages` loop, with `fuel = max_pages - page + 1`
remaining iterations. -/
def fetchAllPagesGo (m : PageMethod) : Nat → Nat → DataCache → AggResult
  | _, 0, c => ⟨[], [], c⟩
  | page, fuel + 1, c =>
      let r := m c page
      match r.1 with
      | .error _ => ⟨[], [page], r.2⟩
      | .ok none => ⟨[], [page], r.2⟩
      | .ok (some d) =>
          match d.response with
          | none => ⟨[], [page], r.2⟩
          | some resp =>
              match resp.body with
              | none => ⟨[], [page], r.2⟩
              | some body =>
                  match body.items with
                  | none => ⟨[], [page], r.2⟩
                  | some items =>
                      if items.isEmpty then ⟨[], [page], r.2⟩
                      else if items.length < 100 then ⟨items, [page], r.2⟩
                      else
                        let rest := fetchAllPagesGo m (page + 1) fuel r.2
                        ⟨items ++ rest.items, page :: rest.calls, rest.cache⟩

/-- `fetch_all_pages(api_method, max_pages=10)`: pages start at 1. -/
def fetch_all_pages (m : PageMethod) (c : DataCache) (maxPages : Nat := 10) : AggResult :=
  fetchAllPagesGo m 1 maxPages c

/-- A cache-less page fetcher (e.g. a test stub) lifted to a `PageMethod`. -/
def pureMethod (f : Nat → FetchResult) : PageMethod :=
  fun c p => (f p, c)

/-- `fetch_all_pages` applied to a cache-less fetcher stub: the items and
the invoked pages. -/
def aggregatePure (f : Nat → FetchResult) (maxPages : Nat := 10) :
    List RawItem × List Nat :=
  let r := fetch_all_pages (pureMethod f) (mkDataCache) maxPages
  (r.items, r.calls)

/-- `pages start ++ pages (start+1) ++ ... ` over `n` consecutive pages;
used to state prefix-aggregation results. -/
def concatPages (pages : Nat → List RawItem) : Nat → Nat → List RawItem
  | _, 0 => []
  | start, n + 1 => pages start ++ concatPages pages (start + 1) n

/-- `[start, start+1, ..., start+n-1]`. -/
def pageRange : Nat → Nat → List Nat
  | _, 0 => []
  | start, n + 1 => start :: pageRange (start + 1) n

/-! ## Resource formatters (server_claude.py lines 298-388)

Each `format_*_resource` builds a list of formatted item dicts, wraps them
in a result dict `{type, total_count, last_updated, data}` and serializes it
with `json.dumps(result, ensure_ascii=False, indent=2)`.  The builder (the
dict) and the serializer (the dump) are embedded separately so that
field-level properties can be stated about the former.  `last_updated` is
`datetime.now().isoformat()`; the clock is the explicit `Nat` parameter and
its rendering is modelled as `toString`.  The modelled strings contain no
characters that `json.dumps` would escape, so serialization of a string is
plain quoting. -/

structure Coordinates where
  latitude : String
  longitude : String
  deriving DecidableEq, Repr

structure ParkingItemF where
  id : String
  name : String
  address : String
  parking_spaces : String
  fee_info : String
  phone : String
  open_time : String
  close_time : String
  operation_day : String
  facility_type : String
  coordinates : Coordinates
  deriving DecidableEq, Repr

structure SmokingItemF where
  id : String
  name : String
  address : String
  management_org : String
  management_phone : String
  coordinates : Coordinates
  deriving DecidableEq, Repr

structure RestaurantItemF where
  id : String
  name : String
  address : String
  main_menu : String
  phone : String
  business_type : String
  coordinates : Coordinates
  deriving DecidableEq, Repr

/-- The per-item dict built in the loop of `format_parking_resource`. -/
def format_parking_item (it : RawItem) : ParkingItemF :=
  ⟨rawGet it "prkplceNo", rawGet it "prkplceNm", rawGet it "rdnmadr",
   rawGet it "prkcmprt", rawGet it "feedingSe", rawGet it "phoneNumber",
   rawGet it "operOpenHm", rawGet it "operCloseHm", rawGet it "operDay",
   rawGet it "prkplceSe", ⟨rawGet it "latitude", rawGet it "longitude"⟩⟩

/-- The per-item dict built in the loop of `format_smoking_area_resource`. -/
def format_smoking_item (it : RawItem) : SmokingItemF :=
  ⟨rawGet it "smkngAreaNo", rawGet it "smkngAreaNm", rawGet it "rdnmadr",
   rawGet it "mngmtInsttNm", rawGet it "mngmtInsttPhoneNumber",
   ⟨rawGet it "latitude", rawGet it "longitude"⟩⟩

/-- The per-item dict built in the loop of `format_restaurant_resource`. -/
def format_restaurant_item (it : RawItem) : RestaurantItemF :=
  ⟨rawGet it "restaurantId", rawGet it "mtlty", rawGet it "addr",
   rawGet it "main_menu", rawGet it "telno", rawGet it "bizestblSe",
   ⟨rawGet it "latitude", rawGet it "longitude"⟩⟩

/-- The `result` dict of a formatter: `{"type": ..., "total_count":
len(formatted_items), "last_updated": now, "data": formatted_items}`. -/
structure ResourceDoc (β : Type) where
  type : String
  total_count : Nat
  last_updated : Nat
  data : List β
  deriving DecidableEq, Repr

/-- The `result` dict of `format_parking_resource`. -/
def build_parking_doc (items : List RawItem) (now : Nat) : ResourceDoc ParkingItemF :=
  let fs := items.map format_parking_item
  ⟨"sejong_parking_lots", fs.length, now, fs⟩

/-- The `result` dict of `format_smoking_area_resource`. -/
def build_smoking_doc (items : List RawItem) (now : Nat) : ResourceDoc SmokingItemF :=
  let fs := items.map format_smoking_item
  ⟨"sejong_smoking_areas", fs.length, now, fs⟩

/-- The `result` dict of `format_restaurant_resource`. -/
def build_restaurant_doc (items : List RawItem) (now : Nat) : ResourceDoc RestaurantItemF :=
  let fs := items.map format_restaurant_item
  ⟨"sejong_restaurants", fs.length, now, fs⟩

/-- JSON string literal (no escaping needed for the modelled strings). -/
def qs (s : String) : String := "\"" ++ s ++ "\""

/-- Joins already-serialized array elements with `",\n"`, as
`json.dumps(..., indent=2)` does. -/
def joinComma : List String → String
  | [] => ""
  | [s] => s
  | s :: t :: ts => s ++ ",\n" ++ joinComma (t :: ts)

/-- `json.dumps` rendering (indent=2) of one formatted parking item as an
element of the `data` array. -/
def serialize_parking_item (it : ParkingItemF) : String :=
  "    \x7b\n" ++
  "      \"id\": " ++ qs it.id ++ ",\n" ++
  "      \"name\": " ++ qs it.name ++ ",\n" ++
  "      \"address\": " ++ qs it.address ++ ",\n" ++
  "      \"parking_spaces\": " ++ qs it.parking_spaces ++ ",\n" ++
  "      \"fee_info\": " ++ qs it.fee_info ++ ",\n" ++
  "      \"phone\": " ++ qs it.phone ++ ",\n" ++
  "      \"open_time\": " ++ qs it.open_time ++ ",\n" ++
  "      \"close_time\": " ++ qs it.close_time ++ ",\n" ++
  "      \"operation_day\": " ++ qs it.operation_day ++ ",\n" ++
  "      \"facility_type\": " ++ qs it.facility_type ++ ",\n" ++
  "      \"coordinates\": \x7b\n" ++
  "        \"latitude\": " ++ qs it.coordinates.latitude ++ ",\n" ++
  "        \"longitude\": " ++ qs it.coordinates.longitude ++ "\n" ++
  "      \x7d\n" ++
  "    \x7d"

/-- `json.dumps` rendering (indent=2) of one formatted smoking-area item. -/
def serialize_smoking_item (it : SmokingItemF) : String :=
  "    \x7b\n" ++
  "      \"id\": " ++ qs it.id ++ ",\n" ++
  "      \"name\": " ++ qs it.name ++ ",\n" ++
  "      \"address\": " ++ qs it.address ++ ",\n" ++
  "      \"management_org\": " ++ qs it.management_org ++ ",\n" ++
  "      \"management_phone\": " ++ qs it.management_phone ++ ",\n" ++
  "      \"coordinates\": \x7b\n" ++
  "        \"latitude\": " ++ qs it.coordinates.latitude ++ ",\n" ++
  "        \"longitude\": " ++ qs it.coordinates.longitude ++ "\n" ++
  "      \x7d\n" ++
  "    \x7d"

/-- `json.dumps` rendering (indent=2) of one formatted restaurant item. -/
def serialize_restaurant_item (it : RestaurantItemF) : String :=
  "    \x7b\n" ++
  "      \"id\": " ++ qs it.id ++ ",\n" ++
  "      \"name\": " ++ qs it.name ++ ",\n" ++
  "      \"address\": " ++ qs it.address ++ ",\n" ++
  "      \"main_menu\": " ++ qs it.main_menu ++ ",\n" ++
  "      \"phone\": " ++ qs it.phone ++ ",\n" ++
  "      \"business_type\": " ++ qs it.business_type ++ ",\n" ++
  "      \"coordinates\": \x7b\n" ++
  "        \"latitude\": " ++ qs it.coordinates.latitude ++ ",\n" ++
  "        \"longitude\": " ++ qs it.coordinates.longitude ++ "\n" ++
  "      \x7d\n" ++
  "    \x7d"

/-- `json.dumps(result, ensure_ascii=False, indent=2)` for a result dict,
given the serializer for its data elements. -/
def serialize_doc {β : Type} (ser : β → String) (d : ResourceDoc β) : String :=
  "\x7b\n" ++
  "  \"type\": " ++ qs d.type ++ ",\n" ++
  "  \"total_count\": " ++ toString d.total_count ++ ",\n" ++
  "  \"last_updated\": " ++ qs (toString d.last_updated) ++ ",\n" ++
  "  \"data\": " ++
    (if d.data.isEmpty then "[]"
     else "[\n" ++ joinComma (d.data.map ser) ++ "\n  ]") ++ "\n" ++
  "\x7d"

/-- `format_parking_resource(items)` at clock value `now`. -/
def format_parking_resource (items : List RawItem) (now : Nat) : String :=
  serialize_doc serialize_parking_item (build_parking_doc items now)

/-- `format_smoking_area_resource(items)` at clock value `now`. -/
def format_smoking_area_resource (items : List RawItem) (now : Nat) : String :=
  serialize_doc serialize_smoking_item (build_smoking_doc items now)

/-- `format_restaurant_resource(items)` at clock value `now`. -/
def format_restaurant_resource (items : List RawItem) (now : Nat) : String :=
  serialize_doc serialize_restaurant_item (build_restaurant_doc items now)

/-! ## Dispatch layer (server_claude.py lines 200-509)

`ready` models `api_client` being initialized.  Tool results are the text of
the single `TextContent` the handler returns; resource reads return the
document string.  Both handlers catch every exception internally, which the
embedding reflects by being total functions. -/

/-- `json.dumps({"error": msg}, ensure_ascii=False, indent=2)`. -/
def errorDoc (msg : String) : String :=
  "\x7b\n  \"error\": \"" ++ msg ++ "\"\n\x7d"

/-- One entry of the `handle_list_tools` result (name, description, the
`enum` of its `resource_type` property, and the schema's required
arguments). -/
structure ToolSpec where
  name : String
  description : String
  resourceTypeEnum : List String
  requiredArgs : List String
  deriving DecidableEq, Repr

/-- `handle_list_tools` (lines 391-430): the server registers exactly two
tools, `refresh_data` and `search_data`. -/
def handle_list_tools : List ToolSpec :=
  [⟨"refresh_data", "캐시된 데이터를 새로고침합니다.",
    ["parking", "smoking_area", "restaurant", "all"], []⟩,
   ⟨"search_data", "특정 키워드로 데이터를 검색합니다.",
    ["parking", "smoking_area", "restaurant"], ["resource_type", "keyword"]⟩]

/-- The `arguments` dict of a tool call, read only through
`arguments.get("resource_type")` and `arguments.get("keyword", "")`. -/
structure ToolArgs where
  resource_type : Option String
  keyword : Option String
  deriving DecidableEq, Repr

/-- The `refresh_data` branch of `handle_call_tool` (lines 443-466): the
whole-cache `clear()` happens only inside the parking/all conditional; each
branch then eagerly calls the corresponding client method with all-default
arguments; an exception anywhere yields the failure text, keeping the cache
mutations made so far. -/
def refreshBranch (uP : Upstream4) (uS : Upstream3) (uR : Upstream4)
    (c : DataCache) (now : Nat) (rt : String) : String × DataCache :=
  let failText := fun (e : String) => "❌ 데이터 새로고침 실패: " ++ e
  let step1 : Option String × DataCache :=
    if rt == "parking" || rt == "all" then
      match getSejongParkingInfo uP (dcClear c) now with
      | (.error e, c1) => (some e, c1)
      | (.ok _, c1) => (none, c1)
    else (none, c)
  match step1 with
  | (some e, c1) => (failText e, c1)
  | (none, c1) =>
      let step2 : Option String × DataCache :=
        if rt == "smoking_area" || rt == "all" then
          match getSejongSmokingArea uS c1 now with
          | (.error e, c2) => (some e, c2)
          | (.ok _, c2) => (none, c2)
        else (none, c1)
      match step2 with
      | (some e, c2) => (failText e, c2)
      | (none, c2) =>
          let step3 : Option String × DataCache :=
            if rt == "restaurant" || rt == "all" then
              match getSejongRestaurant uR c2 now with
              | (.error e, c3) => (some e, c3)
              | (.ok _, c3) => (none, c3)
            else (none, c2)
          match step3 with
          | (some e, c3) => (failText e, c3)
          | (none, c3) =>
              ("✅ " ++ rt ++ " 데이터가 성공적으로 새로고침되었습니다.", c3)

/-- The per-resource-type dispatch of the `search_data` branch
(lines 473-483): each arm queries a single upstream page with the keyword
(page 1, unit 100, the endpoint's fixed search condition); `none` is the
`else` arm for an unrecognized resource type. -/
def searchFetch (uP : Upstream4) (uS : Upstream3) (uR : Upstream4)
    (c : DataCache) (now : Nat) (rtOpt : Option String) (kw : String) :
    Option (String × (FetchResult × DataCache)) :=
  if rtOpt == some "parking" then
    some ("parking", getSejongParkingInfo uP c now 1 100 "nm" kw)
  else if rtOpt == some "smoking_area" then
    some ("smoking_area", getSejongSmokingArea uS c now 1 100 kw)
  else if rtOpt == some "restaurant" then
    some ("restaurant", getSejongRestaurant uR c now 1 100 "mtlty" kw)
  else none

/-- The count `len(items)` computed by the `search_data` branch
(lines 485-487) when it reaches the well-formed-response arm: the number of
items in the single upstream page, `none` otherwise. -/
def search_data_count (uP : Upstream4) (uS : Upstream3) (uR : Upstream4)
    (c : DataCache) (now : Nat) (rtOpt : Option String) (kw : String) : Option Nat :=
  match searchFetch uP uS uR c now rtOpt kw with
  | none => none
  | some (_, (.error _, _)) => none
  | some (_, (.ok dataOpt, _)) =>
      match dataOpt with
      | none => none
      | some d =>
          match d.response with
          | none => none
          | some resp =>
              match resp.body with
              | none => none
              | some body => some (body.items.getD []).length

/-- The `search_data` branch of `handle_call_tool` (lines 468-503). -/
def searchBranch (uP : Upstream4) (uS : Upstream3) (uR : Upstream4)
    (c : DataCache) (now : Nat) (rtOpt : Option String) (kw : String) :
    String × DataCache :=
  let noResult := "🔍 \x27" ++ kw ++ "\x27 검색 결과가 없습니다."
  match searchFetch uP uS uR c now rtOpt kw with
  | none => ("❌ 유효하지 않은 리소스 타입입니다.", c)
  | some (_, (.error e, c1)) => ("❌ 검색 실패: " ++ e, c1)
  | some (rt, (.ok dataOpt, c1)) =>
      match dataOpt with
      | none => (noResult, c1)
      | some d =>
          match d.response with
          | none => (noResult, c1)
          | some resp =>
              match resp.body with
              | none => (noResult, c1)
              | some body =>
                  let count := (body.items.getD []).length
                  ("🔍 \x27" ++ kw ++ "\x27 검색 결과: " ++ toString count ++
                   "개의 " ++ rt ++ " 항목을 찾았습니다." ++ "\n" ++
                   "리소스에서 전체 데이터를 확인할 수 있습니다.", c1)

/-- `handle_call_tool` (lines 433-509): dispatch on tool name, preceded by
the `api_client` initialization check. -/
def handle_call_tool (ready : Bool) (uP : Upstream4) (uS : Upstream3) (uR : Upstream4)
    (c : DataCache) (now : Nat) (name : String) (args : ToolArgs) :
    String × DataCache :=
  if !ready then
    ("❌ API 클라이언트가 초기화되지 않았습니다. 서비스 키를 확인해주세요.", c)
  else if name == "refresh_data" then
    refreshBranch uP uS uR c now (args.resource_type.getD "all")
  else if name == "search_data" then
    searchBranch uP uS uR c now args.resource_type (args.keyword.getD "")
  else
    ("❌ 알 수 없는 도구: " ++ name, c)

/-- The page fetcher `handle_read_resource` hands to `fetch_all_pages` for
the parking resource: `api_client.get_sejong_parking_info` with
`page_index=page, page_unit=100` and the remaining defaults. -/
def parkingMethod (uP : Upstream4) (now : Nat) : PageMethod :=
  fun c p => getSejongParkingInfo uP c now p 100 "nm" ""

/-- The page fetcher for the smoking-area resource. -/
def smokingMethod (uS : Upstream3) (now : Nat) : PageMethod :=
  fun c p => getSejongSmokingArea uS c now p 100 ""

/-- The page fetcher for the restaurant resource. -/
def restaurantMethod (uR : Upstream4) (now : Nat) : PageMethod :=
  fun c p => getSejongRestaurant uR c now p 100 "mtlty" ""

/-- `handle_read_resource` (lines 226-260): dispatch on the URI; each known
URI aggregates all pages through the signature cache and formats the
result; every other URI yields the unknown-resource error document. -/
def handle_read_resource (ready : Bool) (uP : Upstream4) (uS : Upstream3) (uR : Upstream4)
    (c : DataCache) (now : Nat) (uri : String) : String × DataCache :=
  if !ready then
    (errorDoc "API 클라이언트가 초기화되지 않았습니다. 서비스 키를 확인해주세요.", c)
  else if uri == "sejong://parking/list" then
    let r := fetch_all_pages (parkingMethod uP now) c 10
    (format_parking_resource r.items now, r.cache)
  else if uri == "sejong://smoking-area/list" then
    let r := fetch_all_pages (smokingMethod uS now) c 10
    (format_smoking_area_resource r.items now, r.cache)
  else if uri == "sejong://restaurant/list" then
    let r := fetch_all_pages (restaurantMethod uR now) c 10
    (format_restaurant_resource r.items now, r.cache)
  else
    (errorDoc ("알 수 없는 리소스: " ++ uri), c)

/-! ## Spec-side model of the search tool (for claim C3 only)

The spec describes `search_data` as a case-insensitive substring match of
the keyword against the cached formatted items' `name` and `address`
fields.  The following definitions formalise that description from the
spec's words, to be compared against the implementation above. -/

/-- A formatted item as the spec's search description sees it. -/
structure SearchItem where
  name : String
  address : String
  deriving DecidableEq, Repr

/-- Does `hay` start with `needle`? -/
def startsWithChars : List Char → List Char → Bool
  | [], _ => true
  | _ :: _, [] => false
  | a :: as, b :: bs => a == b && startsWithChars as bs

/-- Does `hay` contain `needle` as a contiguous run? -/
def hasSubChars (needle : List Char) : List Char → Bool
  | [] => needle.isEmpty
  | b :: bs => startsWithChars needle (b :: bs) || hasSubChars needle bs

/-- Case-insensitive substring containment of `kw` in `hay`. -/
def ciContains (hay kw : String) : Bool :=
  hasSubChars (kw.data.map Char.toLower) (hay.data.map Char.toLower)

/-- Modelled from the spec: the subset of the cached formatted items whose
`name` or `address` contains the keyword case-insensitively — the result
the spec says the search tool returns.  This follows the spec's words, not
the source, and exists to be compared with `searchBranch` /
`search_data_count`. -/
def specSearchData (its : List SearchItem) (kw : String) : List SearchItem :=
  its.filter (fun it => ciContains it.name kw || ciContains it.address kw)

/-! ## Concrete fixtures used by closed statements and witnesses -/

/-- Upstream stub (4-parameter endpoints) whose every fetch parses to a
falsy payload. -/
def stubNone4 : Upstream4 := fun _ _ _ _ => .ok none

/-- Upstream stub (3-parameter endpoint) whose every fetch parses to a
falsy payload. -/
def stubNone3 : Upstream3 := fun _ _ _ => .ok none

/-- The stale smoking-area page cached before a refresh. -/
def smokingOldData : ApiData := mkFull [[("smkngAreaNm", "Old")]]

/-- What the upstream would return for the same page after the refresh. -/
def smokingNewData : ApiData := mkFull [[("smkngAreaNm", "New")]]

/-- Upstream stub serving the new smoking-area data. -/
def smokingStubNew : Upstream3 := fun _ _ _ => .ok (some smokingNewData)

/-- A signature cache holding the stale smoking-area page-1 entry (stored
at time 0, within TTL at time 5). -/
def warmSmokingCache : DataCache := ⟨[("smoking_1_100_", smokingOldData, 0)], 30⟩

/-- The result of calling `refresh_data` with `resource_type =
"smoking_area"` at time 5 against the warm cache and the new upstream. -/
def refreshSmokingRun : String × DataCache :=
  handle_call_tool true stubNone4 smokingStubNew stubNone4 warmSmokingCache 5
    "refresh_data" ⟨some "smoking_area", none⟩

/-- First parking read at time 0 from an empty cache. -/
def parkingRead1 : String × DataCache :=
  handle_read_resource true stubNone4 stubNone3 stubNone4 (mkDataCache) 0
    "sejong://parking/list"

/-- Second parking read, one minute later, from the cache the first read
left behind, with no intervening invalidation and an unchanged upstream. -/
def parkingRead2 : String × DataCache :=
  handle_read_resource true stubNone4 stubNone3 stubNone4 parkingRead1.2 1
    "sejong://parking/list"

/-- First raw item of the spec's search-correctness scenario. -/
def claimItemA : RawItem := [("prkplceNm", "Sejong Parking A"), ("rdnmadr", "123 Main")]

/-- Second raw item of the spec's search-correctness scenario. -/
def claimItemB : RawItem := [("prkplceNm", "Other"), ("rdnmadr", "456 Sejong Ave")]

/-- Upstream stub mirroring the real endpoint's server-side name-only
search: the query for "sejong" returns only the item whose name matches,
not the one whose address does. -/
def searchStub : Upstream4 := fun p _ _ kw =>
  if p = 1 && kw = "sejong" then .ok (some (mkFull [claimItemA])) else .ok none

/-- A signature cache already holding the full aggregated parking dataset
(both scenario items) under the read-path signature. -/
def warmParkingCache : DataCache :=
  ⟨[(parkingKey 1 100 "nm" "", mkFull [claimItemA, claimItemB], 0)], 30⟩

/-- Upstream stub returning a single-item (short, hence final) page. -/
def stubOneItem4 : Upstream4 := fun _ _ _ _ => .ok (some (mkFull [[]]))

/-- How one fetch result steers the loop: stop contributing nothing, stop
after appending a short page, or append a full page and continue. -/
inductive StepKind where
  | stopEmpty
  | stopShort (items : List RawItem)
  | continueFull (items : List RawItem)

/-- Classifies a fetch result by the termination rule it triggers. -/
def classify : FetchResult → StepKind
  | .error _ => .stopEmpty
  | .ok none => .stopEmpty
  | .ok (some d) =>
      match d.response with
      | none => .stopEmpty
      | some resp =>
          match resp.body with
          | none => .stopEmpty
          | some body =>
              match body.items with
              | none => .stopEmpty
              | some items =>
                  if items.isEmpty then .stopEmpty
                  else if items.length < 100 then .stopShort items
                  else .continueFull items

/-! ## Helper lemmas about the signature cache and read coherence

`ParkingCoherent u c` says every cache entry whose key is a parking
read-path key (pages below 11, the only ones `fetch_all_pages` with
`max_pages = 10` can touch) stores exactly what the upstream fetcher
returns for that page.  It holds for the empty cache and is preserved by
the read path, which lets two successive reads be compared. -/

def ParkingCoherent (u : Upstream4) (c : DataCache) : Prop :=
  ∀ e ∈ c.cache, ∀ p : Nat, p < 11 → e.1 = parkingKey p 100 "nm" "" →
    u p 100 "nm" "" = .ok (some e.2.1)

/-! ## Helper lemmas about the pagination loop -/

/-- One loop iteration with a cache-less fetcher that raises: stop with
nothing, after the one call. -/
lemma go_step_error (f : Nat → FetchResult) (page fuel : Nat) (c : DataCache) (e : String)
    (hf : f page = .error e) :
    fetchAllPagesGo (pureMethod f) page (fuel + 1) c = ⟨[], [page], c⟩ := by
  simp [fetchAllPagesGo, pureMethod, hf]

/-- One loop iteration on a full page (exactly the page size): append and
continue. -/
lemma go_step_full (f : Nat → FetchResult) (page fuel : Nat) (c : DataCache) (items : List RawItem)
    (hf : f page = .ok (some (mkFull items))) (hlen : items.length = 100) :
    fetchAllPagesGo (pureMethod f) page (fuel + 1) c =
      ⟨items ++ (fetchAllPagesGo (pureMethod f) (page + 1) fuel c).items,
       page :: (fetchAllPagesGo (pureMethod f) (page + 1) fuel c).calls,
       (fetchAllPagesGo (pureMethod f) (page + 1) fuel c).cache⟩ := by
  have hne : items.isEmpty = false := by
    cases h : items with
    | nil => subst h; simp at hlen
    | cons a as => simp [h]
  simp [fetchAllPagesGo, pureMethod, hf, mkFull, hne, hlen]

/-- One loop iteration on a non-empty short page: append it, then stop. -/
lemma go_step_short (f : Nat → FetchResult) (page fuel : Nat) (c : DataCache) (items : List RawItem)
    (hf : f page = .ok (some (mkFull items))) (hne : items ≠ []) (hlen : items.length < 100) :
    fetchAllPagesGo (pureMethod f) page (fuel + 1) c = ⟨items, [page], c⟩ := by
  have hne' : items.isEmpty = false := by
    cases h : items with
    | nil => exact absurd h hne
    | cons a as => simp [h]
  simp [fetchAllPagesGo, pureMethod, hf, mkFull, hne', hlen]

/-- A run of `n` full pages followed by a raising fetch: the loop returns
exactly the prefix, having called pages `start .. start+n`. -/
lemma go_pure_prefix_error (f : Nat → FetchResult) (pages : Nat → List RawItem) (e : String) :
    ∀ (n page fuel : Nat) (c : DataCache), n < fuel →
    (∀ i, i < n → f (page + i) = .ok (some (mkFull (pages (page + i)))) ∧
      (pages (page + i)).length = 100) →
    f (page + n) = .error e →
    fetchAllPagesGo (pureMethod f) page fuel c
      = ⟨concatPages pages page n, pageRange page (n + 1), c⟩ := by
  intro n
  induction n with
  | zero =>
    intro page fuel c hfuel _ herr
    obtain ⟨m, rfl⟩ : ∃ m, fuel = m + 1 := ⟨fuel - 1, by omega⟩
    rw [go_step_error f page m c e (by simpa using herr)]
    simp [concatPages, pageRange]
  | succ k ih =>
    intro page fuel c hfuel hfull herr
    obtain ⟨m, rfl⟩ : ∃ m, fuel = m + 1 := ⟨fuel - 1, by omega⟩
    have h0 := hfull 0 (Nat.succ_pos k)
    rw [go_step_full f page m c (pages page) (by simpa using h0.1) (by simpa using h0.2)]
    have hrec := ih (page + 1) m c (by omega)
      (fun i hi => by
        have hh := hfull (i + 1) (by omega)
        constructor
        · have := hh.1; rw [show page + (i + 1) = page + 1 + i by omega] at this; exact this
        · have := hh.2; rw [show page + (i + 1) = page + 1 + i by omega] at this; exact this)
      (by rw [show page + 1 + k = page + (k + 1) by omega]; exact herr)
    rw [hrec]
    simp [concatPages, pageRange]

/-- A fetcher whose every page is full: the loop runs its whole fuel. -/
lemma go_pure_all_full (f : Nat → FetchResult) (pages : Nat → List RawItem)
    (hfull : ∀ p, f p = .ok (some (mkFull (pages p))) ∧ (pages p).length = 100) :
    ∀ (fuel page : Nat) (c : DataCache),
    fetchAllPagesGo (pureMethod f) page fuel c
      = ⟨concatPages pages page fuel, pageRange page fuel, c⟩ := by
  intro fuel
  induction fuel with
  | zero => intro page c; simp [fetchAllPagesGo, concatPages, pageRange]
  | succ m ih =>
    intro page c
    rw [go_step_full f page m c (pages page) (hfull page).1 (hfull page).2, ih (page + 1) c]
    simp [concatPages, pageRange]

lemma pageRange_length : ∀ (n start : Nat), (pageRange start n).length = n := by
  intro n
  induction n with
  | zero => intro start; simp [pageRange]
  | succ m ih => intro start; simp [pageRange, ih]

/-- The loop makes at most `fuel` fetcher calls, whatever the method. -/
lemma go_calls_le (m : PageMethod) : ∀ (fuel page : Nat) (c : DataCache),
    (fetchAllPagesGo m page fuel c).calls.length ≤ fuel := by
  intro fuel
  induction fuel with
  | zero => intro page c; simp [fetchAllPagesGo]
  | succ n ih =>
    intro page c
    rw [fetchAllPagesGo]
    split
    · simp
    · simp
    · split
      · simp
      · split
        · simp
        · split
          · simp
          · split
            · simp
            · split
              · simp
              · simpa using ih _ _

/-- One unfolding of the loop, phrased through `classify`. -/
lemma go_succ (m : PageMethod) (page fuel : Nat) (c : DataCache) :
    fetchAllPagesGo m page (fuel + 1) c =
      match classify (m c page).1 with
      | .stopEmpty => ⟨[], [page], (m c page).2⟩
      | .stopShort its => ⟨its, [page], (m c page).2⟩
      | .continueFull its =>
          ⟨its ++ (fetchAllPagesGo m (page + 1) fuel (m c page).2).items,
           page :: (fetchAllPagesGo m (page + 1) fuel (m c page).2).calls,
           (fetchAllPagesGo m (page + 1) fuel (m c page).2).cache⟩ := by
  cases hr : (m c page).1 with
  | error e => simp [fetchAllPagesGo, classify, hr]
  | ok od =>
    cases od with
    | none => simp [fetchAllPagesGo, classify, hr]
    | some d =>
      cases hresp : d.response with
      | none => simp [fetchAllPagesGo, classify, hr, hresp]
      | some resp =>
        cases hbody : resp.body with
        | none => simp [fetchAllPagesGo, classify, hr, hresp, hbody]
        | some body =>
          cases hitems : body.items with
          | none => simp [fetchAllPagesGo, classify, hr, hresp, hbody, hitems]
          | some items =>
            by_cases hemp : items.isEmpty
            · simp [fetchAllPagesGo, classify, hr, hresp, hbody, hitems, hemp]
            · by_cases hlen : items.length < 100
              · simp [fetchAllPagesGo, classify, hr, hresp, hbody, hitems, hemp, hlen]
              · simp [fetchAllPagesGo, classify, hr, hresp, hbody, hitems, hemp, hlen]

lemma classify_pure (f : Nat → FetchResult) (c : DataCache) (page : Nat) :
    classify ((pureMethod f) c page).1 = classify (f page) := rfl

/-- The parking read-path cache keys for pages below 11 are pairwise
distinct. -/
lemma parkingKey_inj10 : ∀ p, p < 11 → ∀ q, q < 11 →
    parkingKey p 100 "nm" "" = parkingKey q 100 "nm" "" → p = q := by decide

lemma dcGet_fst_some (c : DataCache) (k : String) (now : Nat) (d : ApiData)
    (h : (dcGet c k now).1 = some d) : ∃ e ∈ c.cache, e.1 = k ∧ e.2.1 = d := by
  unfold dcGet at h
  cases hf : c.cache.find? (fun e => e.1 == k) with
  | none => rw [hf] at h; simp at h
  | some e =>
    rw [hf] at h
    by_cases ht : now - e.2.2 < c.ttl
    · simp only [ht, if_true] at h
      refine ⟨e, List.mem_of_find?_eq_some hf, ?_, ?_⟩
      · have := List.find?_some hf
        simpa using this
      · simpa using h
    · simp [ht] at h

lemma dcGet_snd_sub (c : DataCache) (k : String) (now : Nat) :
    ∀ e ∈ (dcGet c k now).2.cache, e ∈ c.cache := by
  intro e he
  unfold dcGet at he
  cases hf : c.cache.find? (fun e => e.1 == k) with
  | none => rw [hf] at he; exact he
  | some e0 =>
    rw [hf] at he
    by_cases ht : now - e0.2.2 < c.ttl
    · simpa [ht] using he
    · simp only [ht, if_false] at he
      exact List.mem_of_mem_filter he

lemma coherent_dcGet (u : Upstream4) (c : DataCache) (k : String) (now : Nat)
    (h : ParkingCoherent u c) : ParkingCoherent u (dcGet c k now).2 :=
  fun e he p hp hk => h e (dcGet_snd_sub c k now e he) p hp hk

lemma coherent_dcSet (u : Upstream4) (c : DataCache) (now : Nat) (p0 : Nat) (d : ApiData)
    (hp0 : p0 < 11) (hd : u p0 100 "nm" "" = .ok (some d)) (h : ParkingCoherent u c) :
    ParkingCoherent u (dcSet c (parkingKey p0 100 "nm" "") d now) := by
  intro e he p hp hk
  unfold dcSet at he
  simp only [List.mem_cons] at he
  rcases he with he | he
  · subst he
    simp only at hk
    have hpp : p = p0 := parkingKey_inj10 p hp p0 hp0 (by rw [← hk])
    subst hpp
    simpa using hd
  · exact h e (List.mem_of_mem_filter he) p hp hk

/-- On a coherent cache the parking client method answers exactly what the
upstream fetcher would, and coherence survives. -/
lemma parkingMethod_spec (u : Upstream4) (now : Nat) (c : DataCache) (p : Nat)
    (hp : p < 11) (h : ParkingCoherent u c) :
    (parkingMethod u now c p).1 = u p 100 "nm" "" ∧
    ParkingCoherent u (parkingMethod u now c p).2 := by
  unfold parkingMethod getSejongParkingInfo getCachedOrFetch
  simp only
  cases hg : (dcGet c (parkingKey p 100 "nm" "") now).1 with
  | some d =>
    obtain ⟨e, he, hek, hed⟩ := dcGet_fst_some _ _ _ _ hg
    have hu := h e he p hp hek
    simp only [hg]
    exact ⟨by rw [hu, hed], coherent_dcGet u c _ now h⟩
  | none =>
    cases hu : u p 100 "nm" "" with
    | error e => simp only [hg, hu]; exact ⟨trivial, coherent_dcGet u c _ now h⟩
    | ok od =>
      cases od with
      | none => simp only [hg, hu]; exact ⟨trivial, coherent_dcGet u c _ now h⟩
      | some d =>
        simp only [hg, hu]
        exact ⟨trivial, coherent_dcSet u _ now p d hp hu (coherent_dcGet u c _ now h)⟩

/-- On a coherent cache the stateful parking aggregation collects exactly
the items the cache-less aggregation over the upstream fetcher collects,
and leaves a coherent cache behind. -/
lemma parkingGo_coherent (u : Upstream4) (now : Nat) :
    ∀ (fuel page : Nat) (c : DataCache), page + fuel ≤ 11 → ParkingCoherent u c →
    (fetchAllPagesGo (parkingMethod u now) page fuel c).items
        = (fetchAllPagesGo (pureMethod (fun q => u q 100 "nm" "")) page fuel (mkDataCache)).items ∧
    ParkingCoherent u (fetchAllPagesGo (parkingMethod u now) page fuel c).cache := by
  intro fuel
  induction fuel with
  | zero =>
    intro page c _ h
    exact ⟨rfl, h⟩
  | succ m ih =>
    intro page c hb h
    have hp : page < 11 := by omega
    obtain ⟨hm1, hm2⟩ := parkingMethod_spec u now c page hp h
    rw [go_succ (parkingMethod u now) page m c,
        go_succ (pureMethod (fun q => u q 100 "nm" "")) page m (mkDataCache)]
    rw [classify_pure, hm1]
    cases hk : classify (u page 100 "nm" "") with
    | stopEmpty => exact ⟨rfl, hm2⟩
    | stopShort its => exact ⟨rfl, hm2⟩
    | continueFull its =>
      have hrec := ih (page + 1) ((parkingMethod u now) c page).2 (by omega) hm2
      exact ⟨by simp only [pureMethod, hrec.1], hrec.2⟩

/-! ## Claim theorems -/

/-- C1: the claim says every refresh first invalidates the cached entries
of the named datasets and then eagerly recomputes them, so a read right
after the refresh is fresh.  The code clears the cache only inside the
parking/all branch, so `refresh_data{resource_type: "smoking_area"}`
against a warm cache reports success while leaving the stale entry in
place: the refresh-time eager call and any read immediately afterwards
both return the value cached before the refresh (`smokingOldData`), never
invoking the fetcher that now serves `smokingNewData`.  This evaluates the
code at that failing input. -/
theorem refresh_smoking_area_keeps_stale_entry :
    refreshSmokingRun.1 = "✅ smoking_area 데이터가 성공적으로 새로고침되었습니다." ∧
    refreshSmokingRun.2 = warmSmokingCache ∧
    (getSejongSmokingArea smokingStubNew refreshSmokingRun.2 6 1 100 "").1
      = .ok (some smokingOldData) ∧
    smokingOldData ≠ smokingNewData := by decide

/-- C2: when the fetcher succeeds on a prefix of `n` full pages and raises
on page `n + 1`, the aggregation does not propagate the failure: it
returns exactly the items accumulated from the successful prefix (the
embedding is a total function, mirroring the `except` that swallows the
error), having invoked the fetcher on pages `1 .. n+1`. -/
theorem aggregation_absorbs_trailing_fetch_failure
    (f : Nat → FetchResult) (pages : Nat → List RawItem) (e : String) (n : Nat)
    (hn : n < 10)
    (hfull : ∀ i, i < n → f (1 + i) = .ok (some (mkFull (pages (1 + i)))) ∧
      (pages (1 + i)).length = 100)
    (herr : f (1 + n) = .error e) :
    aggregatePure f 10 = (concatPages pages 1 n, pageRange 1 (n + 1)) := by
  unfold aggregatePure fetch_all_pages
  rw [go_pure_prefix_error f pages e n 1 10 (mkDataCache) hn hfull herr]

/-- Witness for C2: one full page of 100 items, then a raising page 2 —
the aggregation returns exactly the 100 items of page 1. -/
theorem aggregation_absorbs_trailing_fetch_failure_holds :
    aggregatePure (fun p => if p = 1 then .ok (some (mkFull (List.replicate 100 ([] : RawItem))))
        else .error "boom") 10
      = (concatPages (fun _ => List.replicate 100 ([] : RawItem)) 1 1, pageRange 1 2) :=
  aggregation_absorbs_trailing_fetch_failure _ (fun _ => List.replicate 100 ([] : RawItem))
    "boom" 1 (by decide)
    (fun i hi => by
      have hi0 : i = 0 := by omega
      subst hi0
      exact ⟨rfl, by simp⟩)
    rfl

/-- C3 counterexample: the claim says searching a cached dataset whose
formatted items are {Sejong Parking A / 123 Main} and {Other / 456 Sejong
Ave} for "sejong" returns both items (case-insensitive match against name
and address) with their count.  In the code the search tool never consults
the cached dataset: even with the full aggregate cached, it issues a fresh
upstream page query with the keyword (name-only server-side search) and
counts that page, yielding 1, while the claimed case-insensitive
name-or-address match over the cached items yields 2. -/
theorem search_not_cached_substring_cex :
    ((build_parking_doc [claimItemA, claimItemB] 0).data.map
        (fun it => (it.name, it.address))
      = [("Sejong Parking A", "123 Main"), ("Other", "456 Sejong Ave")]) ∧
    search_data_count searchStub stubNone3 stubNone4 warmParkingCache 5
        (some "parking") "sejong" = some 1 ∧
    (specSearchData [⟨"Sejong Parking A", "123 Main"⟩, ⟨"Other", "456 Sejong Ave"⟩]
        "sejong").length = 2 ∧
    (1 : Nat) ≠ 2 := by decide

/-- C3 as amended: `search_data` performs no client-side matching at all;
it forwards the keyword to the upstream endpoint as a single page-1 query
(through the signature cache, name-field search condition) and returns only
a text message reporting the count of the items in that upstream page. -/
theorem search_reports_upstream_page_count
    (uP : Upstream4) (uS : Upstream3) (uR : Upstream4) (c : DataCache) (now : Nat)
    (kw : String) (items : List RawItem)
    (hmiss : (dcGet c (parkingKey 1 100 "nm" kw) now).1 = none)
    (hu : uP 1 100 "nm" kw = .ok (some (mkFull items))) :
    (handle_call_tool true uP uS uR c now "search_data" ⟨some "parking", some kw⟩).1
      = "🔍 \x27" ++ kw ++ "\x27 검색 결과: " ++ toString items.length ++
        "개의 " ++ "parking" ++ " 항목을 찾았습니다." ++ "\n" ++
        "리소스에서 전체 데이터를 확인할 수 있습니다." ∧
    search_data_count uP uS uR c now (some "parking") kw = some items.length := by
  have hfetch : getSejongParkingInfo uP c now 1 100 "nm" kw
      = (.ok (some (mkFull items)), dcSet (dcGet c (parkingKey 1 100 "nm" kw) now).2
          (parkingKey 1 100 "nm" kw) (mkFull items) now) := by
    unfold getSejongParkingInfo getCachedOrFetch
    simp only [hmiss, hu]
  constructor
  · simp [handle_call_tool, searchBranch, searchFetch, hfetch, mkFull]
  · simp [search_data_count, searchFetch, hfetch, mkFull]

/-- Witness for C3 as amended: an upstream page with one item makes the
search tool report a count of 1. -/
theorem search_reports_upstream_page_count_holds :
    (handle_call_tool true stubOneItem4 stubNone3 stubNone4 (mkDataCache) 0
        "search_data" ⟨some "parking", some "x"⟩).1
      = "🔍 \x27" ++ "x" ++ "\x27 검색 결과: " ++ toString ([([] : RawItem)]).length ++
        "개의 " ++ "parking" ++ " 항목을 찾았습니다." ++ "\n" ++
        "리소스에서 전체 데이터를 확인할 수 있습니다." ∧
    search_data_count stubOneItem4 stubNone3 stubNone4 (mkDataCache) 0
        (some "parking") "x" = some ([([] : RawItem)]).length :=
  search_reports_upstream_page_count stubOneItem4 stubNone3 stubNone4 (mkDataCache) 0
    "x" [[]] (by decide) rfl

/-- C4 counterexample: the claim says the dispatch layer exposes a tool
named `show_cached_data`.  It does not: the tool list does not contain the
name, and calling it yields the unknown-tool error text. -/
theorem show_cached_data_absent_cex :
    ((handle_list_tools.map ToolSpec.name).contains "show_cached_data") = false ∧
    (handle_call_tool true stubNone4 stubNone3 stubNone4 (mkDataCache) 0
        "show_cached_data" ⟨some "parking", none⟩).1
      = "❌ 알 수 없는 도구: show_cached_data" := by decide

/-- C4 as amended: the tool list is exactly `refresh_data` and
`search_data`; no `show_cached_data` tool exists, and calling that name
with any arguments, cache state and clock returns the unknown-tool error
text. -/
theorem tool_list_is_refresh_and_search :
    handle_list_tools.map ToolSpec.name = ["refresh_data", "search_data"] ∧
    (∀ (uP : Upstream4) (uS : Upstream3) (uR : Upstream4) (c : DataCache) (now : Nat)
        (args : ToolArgs),
      (handle_call_tool true uP uS uR c now "show_cached_data" args).1
        = "❌ 알 수 없는 도구: " ++ "show_cached_data") := by
  constructor
  · rfl
  · intro uP uS uR c now args
    rfl

/-- C5 counterexample: the claim says two successive reads of a known
resource with no intervening invalidation return the byte-for-byte
identical document.  There is no resource-level cache: each read recomputes
the snapshot and embeds the read-time clock in `last_updated`, so two reads
one minute apart — same upstream, same signature cache, no invalidation —
produce different documents. -/
theorem successive_parking_reads_not_identical_cex :
    parkingRead2.1 ≠ parkingRead1.1 := by decide

/-- C5 as amended: each read recomputes the document, but through the
signature cache, so from any cache coherent with the (unchanged) upstream
fetcher — the empty cache in particular — two successive reads aggregate
the identical item list; the two documents are the formatting of the same
items at the two read times, differing only in the embedded `last_updated`
clock. -/
theorem parking_reads_agree_on_data
    (uP : Upstream4) (uS : Upstream3) (uR : Upstream4) (c : DataCache) (t1 t2 : Nat)
    (h : ParkingCoherent uP c) :
    ∃ items : List RawItem,
      (handle_read_resource true uP uS uR c t1 "sejong://parking/list").1
        = format_parking_resource items t1 ∧
      (handle_read_resource true uP uS uR
          (handle_read_resource true uP uS uR c t1 "sejong://parking/list").2
          t2 "sejong://parking/list").1
        = format_parking_resource items t2 := by
  have h1 := parkingGo_coherent uP t1 10 1 c (by omega) h
  have h2 := parkingGo_coherent uP t2 10 1
    (fetchAllPagesGo (parkingMethod uP t1) 1 10 c).cache (by omega) h1.2
  refine ⟨(fetchAllPagesGo (pureMethod (fun q => uP q 100 "nm" "")) 1 10 (mkDataCache)).items,
    ?_, ?_⟩
  · simp only [handle_read_resource, fetch_all_pages]
    simp [h1.1]
  · simp only [handle_read_resource, fetch_all_pages]
    simp [h2.1]

/-- Witness for C5 as amended: from the empty cache, with a one-page
upstream, both reads format the same item list at their respective times. -/
theorem parking_reads_agree_on_data_holds :
    ∃ items : List RawItem,
      (handle_read_resource true stubOneItem4 stubNone3 stubNone4 (mkDataCache) 0
          "sejong://parking/list").1
        = format_parking_resource items 0 ∧
      (handle_read_resource true stubOneItem4 stubNone3 stubNone4
          (handle_read_resource true stubOneItem4 stubNone3 stubNone4 (mkDataCache) 0
            "sejong://parking/list").2
          1 "sejong://parking/list").1
        = format_parking_resource items 1 :=
  parking_reads_agree_on_data stubOneItem4 stubNone3 stubNone4 (mkDataCache) 0 1
    (by intro e he p hp hk; simp [mkDataCache] at he)

/-- C6: any fetcher returning full pages of 100 items on pages 1 and 2 and
a 40-item page on page 3 is invoked exactly on pages 1, 2 and 3, and the
aggregation returns the 240 items in upstream page order — the short page
terminates the loop only after its items are appended. -/
theorem pagination_appends_short_final_page
    (f : Nat → FetchResult) (i1 i2 i3 : List RawItem)
    (h1 : f 1 = .ok (some (mkFull i1))) (hl1 : i1.length = 100)
    (h2 : f 2 = .ok (some (mkFull i2))) (hl2 : i2.length = 100)
    (h3 : f 3 = .ok (some (mkFull i3))) (hl3 : i3.length = 40) :
    aggregatePure f 10 = (i1 ++ (i2 ++ i3), [1, 2, 3]) ∧
    (i1 ++ (i2 ++ i3)).length = 240 := by
  constructor
  · have hne3 : i3 ≠ [] := by
      intro h; rw [h] at hl3; simp at hl3
    have s1 := go_step_full f 1 9 (mkDataCache) i1 h1 hl1
    have s2 := go_step_full f 2 8 (mkDataCache) i2 h2 hl2
    have s3 := go_step_short f 3 7 (mkDataCache) i3 h3 hne3 (by omega)
    unfold aggregatePure fetch_all_pages
    rw [show (10 : Nat) = 9 + 1 from rfl, s1]
    rw [show (1 + 1 : Nat) = 2 from rfl, show (9 : Nat) = 8 + 1 from rfl, s2]
    rw [show (2 + 1 : Nat) = 3 from rfl, show (8 : Nat) = 7 + 1 from rfl, s3]
  · simp [hl1, hl2, hl3]

/-- Witness for C6: a concrete 100/100/40 fetcher yields 240 items in
3 calls. -/
theorem pagination_appends_short_final_page_holds :
    aggregatePure (fun p => if p = 1 then .ok (some (mkFull (List.replicate 100 ([] : RawItem))))
        else if p = 2 then .ok (some (mkFull (List.replicate 100 ([] : RawItem))))
        else .ok (some (mkFull (List.replicate 40 ([] : RawItem))))) 10
      = (List.replicate 100 ([] : RawItem) ++ (List.replicate 100 ([] : RawItem) ++
          List.replicate 40 ([] : RawItem)), [1, 2, 3]) ∧
    (List.replicate 100 ([] : RawItem) ++ (List.replicate 100 ([] : RawItem) ++
        List.replicate 40 ([] : RawItem))).length = 240 :=
  pagination_appends_short_final_page _ _ _ _ rfl (by simp) rfl (by simp) rfl (by simp)

/-- C7: for every page method (however stateful) and every `maxPages`
bound, the aggregation invokes the fetcher at most `maxPages` times — the
loop is never infinite — and a fetcher that returns a full 100-item page
forever is invoked exactly `maxPages` times (in particular 10, the
default). -/
theorem pagination_bounded_by_max_pages :
    (∀ (m : PageMethod) (c : DataCache) (maxPages : Nat),
        (fetch_all_pages m c maxPages).calls.length ≤ maxPages) ∧
    (∀ (f : Nat → FetchResult) (pages : Nat → List RawItem) (maxPages : Nat),
        (∀ p, f p = .ok (some (mkFull (pages p))) ∧ (pages p).length = 100) →
        (aggregatePure f maxPages).2.length = maxPages) := by
  constructor
  · intro m c maxPages
    exact go_calls_le m maxPages 1 c
  · intro f pages maxPages hfull
    unfold aggregatePure fetch_all_pages
    rw [go_pure_all_full f pages hfull maxPages 1 (mkDataCache)]
    simp [pageRange_length]

/-- Witness for C7: a constant full-page fetcher with the default bound of
10 makes exactly 10 calls. -/
theorem pagination_bounded_by_max_pages_holds :
    (fetch_all_pages (pureMethod (fun _ => .ok (some (mkFull (List.replicate 100 ([] : RawItem))))))
        (mkDataCache) 10).calls.length ≤ 10 ∧
    (aggregatePure (fun _ => .ok (some (mkFull (List.replicate 100 ([] : RawItem))))) 10).2.length = 10 :=
  ⟨pagination_bounded_by_max_pages.1 _ _ _,
   pagination_bounded_by_max_pages.2 _ (fun _ => List.replicate 100 ([] : RawItem)) 10
     (fun _ => ⟨rfl, by simp⟩)⟩

/-- C8: a signature-cache lookup immediately after storing a value under a
signature returns that identical value (for any positive TTL, 30 minutes by
default); and a lookup of an entry whose age has reached the TTL returns
absent and removes the entry from the mapping as a side effect. -/
theorem cache_lookup_after_store_and_expiry :
    (∀ (c : DataCache) (k : String) (v : ApiData) (t : Nat), 0 < c.ttl →
      (dcGet (dcSet c k v t) k t).1 = some v) ∧
    (∀ (c : DataCache) (k : String) (v : ApiData) (ts now : Nat),
      dcEntry c k = some (v, ts) → c.ttl ≤ now - ts →
      (dcGet c k now).1 = none ∧ dcEntry (dcGet c k now).2 k = none) := by
  constructor
  · intro c k v t httl
    unfold dcGet dcSet
    rw [List.find?_cons_of_pos _ (by simp)]
    simp [httl]
  · intro c k v ts now hent hexp
    obtain ⟨e, hfind, he2⟩ : ∃ e, c.cache.find? (fun e => e.1 == k) = some e ∧ e.2 = (v, ts) := by
      unfold dcEntry at hent
      cases hf : c.cache.find? (fun e => e.1 == k) with
      | none => rw [hf] at hent; simp at hent
      | some e =>
        rw [hf] at hent
        simp at hent
        exact ⟨e, rfl, hent⟩
    have hts : e.2.2 = ts := by rw [he2]
    have hnot : ¬ (now - e.2.2 < c.ttl) := by rw [hts]; omega
    have hnone : (List.filter (fun e => !(e.1 == k)) c.cache).find? (fun e => e.1 == k) = none := by
      rw [List.find?_eq_none]
      intro x hx
      have := (List.mem_filter.mp hx).2
      simpa using this
    constructor
    · unfold dcGet
      rw [hfind]
      simp [hnot]
    · unfold dcGet
      rw [hfind]
      simp [hnot, dcEntry, hnone]

/-- Witness for C8: store-then-lookup at the default 30-minute TTL returns
the stored value; a 30-minute-old entry is reported absent and evicted. -/
theorem cache_lookup_after_store_and_expiry_holds :
    (dcGet (dcSet (mkDataCache) "k" (mkFull []) 5) "k" 5).1 = some (mkFull []) ∧
    ((dcGet (⟨[("k", mkFull [], 0)], 30⟩ : DataCache) "k" 30).1 = none ∧
      dcEntry (dcGet (⟨[("k", mkFull [], 0)], 30⟩ : DataCache) "k" 30).2 "k" = none) :=
  ⟨cache_lookup_after_store_and_expiry.1 _ "k" (mkFull []) 5 (by decide),
   cache_lookup_after_store_and_expiry.2 _ "k" (mkFull []) 0 30 (by decide) (by decide)⟩

/-- C9 counterexample: the claim says every callTool with an unknown
resource-type argument returns a structured error payload.  For
`refresh_data` it does not: an unknown resource type such as "cctv"
matches none of the three refresh branches, so the handler refreshes
nothing (the cache is returned unchanged) and falls through to the
success message naming the unknown type — not an error. -/
theorem refresh_unknown_resource_type_success_cex :
    (handle_call_tool true stubNone4 stubNone3 stubNone4 (mkDataCache) 0
        "refresh_data" ⟨some "cctv", none⟩).1
      = "✅ cctv 데이터가 성공적으로 새로고침되었습니다." ∧
    (handle_call_tool true stubNone4 stubNone3 stubNone4 (mkDataCache) 0
        "refresh_data" ⟨some "cctv", none⟩).2 = mkDataCache ∧
    "✅ cctv 데이터가 성공적으로 새로고침되었습니다."
      ≠ "❌ 유효하지 않은 리소스 타입입니다." := by decide

/-- C9 as amended: a read of any URI outside the known set returns the
JSON error document (never an uncaught fault — the handler is total); a
call of any unknown tool name returns the unknown-tool error text; a
search call with an unrecognized resource-type argument returns the
invalid-type error text; but a refresh call with an unrecognized
resource-type argument is not rejected: it performs nothing, leaves the
cache unchanged, and returns the ordinary success message naming the
unknown type. -/
theorem unknown_inputs_yield_structured_errors :
    (∀ (uP : Upstream4) (uS : Upstream3) (uR : Upstream4) (c : DataCache) (now : Nat)
        (uri : String),
      uri ≠ "sejong://parking/list" → uri ≠ "sejong://smoking-area/list" →
      uri ≠ "sejong://restaurant/list" →
      (handle_read_resource true uP uS uR c now uri).1
        = errorDoc ("알 수 없는 리소스: " ++ uri)) ∧
    (∀ (uP : Upstream4) (uS : Upstream3) (uR : Upstream4) (c : DataCache) (now : Nat)
        (name : String) (args : ToolArgs),
      name ≠ "refresh_data" → name ≠ "search_data" →
      (handle_call_tool true uP uS uR c now name args).1 = "❌ 알 수 없는 도구: " ++ name) ∧
    (∀ (uP : Upstream4) (uS : Upstream3) (uR : Upstream4) (c : DataCache) (now : Nat)
        (args : ToolArgs),
      args.resource_type ≠ some "parking" → args.resource_type ≠ some "smoking_area" →
      args.resource_type ≠ some "restaurant" →
      (handle_call_tool true uP uS uR c now "search_data" args).1
        = "❌ 유효하지 않은 리소스 타입입니다.") ∧
    (∀ (uP : Upstream4) (uS : Upstream3) (uR : Upstream4) (c : DataCache) (now : Nat)
        (rt : String) (kwOpt : Option String),
      rt ≠ "parking" → rt ≠ "all" → rt ≠ "smoking_area" → rt ≠ "restaurant" →
      (handle_call_tool true uP uS uR c now "refresh_data" ⟨some rt, kwOpt⟩).1
        = "✅ " ++ rt ++ " 데이터가 성공적으로 새로고침되었습니다." ∧
      (handle_call_tool true uP uS uR c now "refresh_data" ⟨some rt, kwOpt⟩).2 = c) := by
  refine ⟨?_, ?_, ?_, ?_⟩
  · intro uP uS uR c now uri h1 h2 h3
    simp [handle_read_resource, h1, h2, h3]
  · intro uP uS uR c now name args h1 h2
    simp [handle_call_tool, h1, h2]
  · intro uP uS uR c now args h1 h2 h3
    simp [handle_call_tool, searchBranch, searchFetch, h1, h2, h3]
  · intro uP uS uR c now rt kwOpt h1 h2 h3 h4
    constructor
    · simp [handle_call_tool, refreshBranch, h1, h2, h3, h4]
    · simp [handle_call_tool, refreshBranch, h1, h2, h3, h4]

/-- Witness for C9 as amended: `readResource("dataset://nonexistent")`,
`callTool("not_a_tool")` and `search_data` with resource type `"cctv"`
each produce their structured error, while `refresh_data` with resource
type `"cctv"` produces the success message and leaves the cache alone. -/
theorem unknown_inputs_yield_structured_errors_holds :
    (handle_read_resource true stubNone4 stubNone3 stubNone4 (mkDataCache) 0
        "dataset://nonexistent").1
      = errorDoc ("알 수 없는 리소스: " ++ "dataset://nonexistent") ∧
    (handle_call_tool true stubNone4 stubNone3 stubNone4 (mkDataCache) 0
        "not_a_tool" ⟨none, none⟩).1
      = "❌ 알 수 없는 도구: " ++ "not_a_tool" ∧
    (handle_call_tool true stubNone4 stubNone3 stubNone4 (mkDataCache) 0
        "search_data" ⟨some "cctv", some ""⟩).1
      = "❌ 유효하지 않은 리소스 타입입니다." ∧
    ((handle_call_tool true stubNone4 stubNone3 stubNone4 (mkDataCache) 0
        "refresh_data" ⟨some "bogus", none⟩).1
      = "✅ " ++ "bogus" ++ " 데이터가 성공적으로 새로고침되었습니다." ∧
     (handle_call_tool true stubNone4 stubNone3 stubNone4 (mkDataCache) 0
        "refresh_data" ⟨some "bogus", none⟩).2 = mkDataCache) :=
  ⟨unknown_inputs_yield_structured_errors.1 _ _ _ _ 0 _ (by decide) (by decide) (by decide),
   unknown_inputs_yield_structured_errors.2.1 _ _ _ _ 0 _ _ (by decide) (by decide),
   unknown_inputs_yield_structured_errors.2.2.1 _ _ _ _ 0 _ (by decide) (by decide) (by decide),
   unknown_inputs_yield_structured_errors.2.2.2 _ _ _ _ 0 "bogus" none
     (by decide) (by decide) (by decide) (by decide)⟩

/-- C10: for every aggregated item list and clock value, each of the three
formatters builds a result dict whose `total_count` field equals the length
of its `data` array — the count reflects the items actually aggregated. -/
theorem total_count_equals_data_length :
    (∀ (items : List RawItem) (now : Nat),
      (build_parking_doc items now).total_count = (build_parking_doc items now).data.length) ∧
    (∀ (items : List RawItem) (now : Nat),
      (build_smoking_doc items now).total_count = (build_smoking_doc items now).data.length) ∧
    (∀ (items : List RawItem) (now : Nat),
      (build_restaurant_doc items now).total_count = (build_restaurant_doc items now).data.length) :=
  ⟨fun _ _ => rfl, fun _ _ => rfl, fun _ _ => rfl⟩

end OpenapiKorea
